import Mathlib

/-!
Verification of the paginated Confluence downloader (`src/conf.py`) and the
CloudWatch logging facade (`src/logger.py`).

The Python code is shallowly embedded: pure helpers become Lean functions,
the retry decorator and the pagination loop become explicit state-passing
functions over an oracle describing the remote service's per-attempt
outcomes, and raised Python exceptions become `Except` errors.  Wall-clock
time (`time.perf_counter`, the exponential backoff sleeps) is not modelled;
times appear only as opaque rational inputs to the progress formatter.
-/

/-! ## Exceptions

Python exception classes relevant to `conf.py`.  `apiPermissionError` is
`atlassian.errors.ApiPermissionError`; `attributeError` is the `AttributeError`
raised by `None.get("totalSize")`; `nameError` is the `NameError` raised when
an f-string references an undefined variable; `otherError` stands for any
other (transient) `Exception` subclass. -/
inductive Exc
  | apiPermissionError
  | attributeError
  | nameError
  | otherError (code : Nat)
deriving DecidableEq, Repr

/-- `isinstance(ex, ApiPermissionError)` — the class tested both by
`retry_if_not_exception_type(ApiPermissionError)` and inside
`log_retry_error` (conf.py:86). -/
def excIsPermission : Exc → Bool
  | .apiPermissionError => true
  | _ => false

/-! ## Log entries

One constructor per logging call site reachable from the embedded code.
`beforeSleepWarning` is tenacity's `before_sleep_log(logger, WARNING)` entry;
`permissionWarning` is the warning conf.py:87 would emit (see
`logRetryError` for why it never is); `exhaustedError` is the
`logger.error` at conf.py:93 carrying the attempt count, the function name,
the call's arguments and the formatted traceback; `noPagesWarning` is
conf.py:124; `downloadException` is the `logger.exception` (ERROR level,
with traceback) at conf.py:141. -/
inductive LogEntry
  | beforeSleepWarning
  | permissionWarning
  | exhaustedError (attempts : Nat)
  | noPagesWarning
  | downloadException
deriving DecidableEq, Repr

/-- Whether a log entry is emitted at WARNING level (as opposed to ERROR). -/
def levelIsWarning : LogEntry → Bool
  | .beforeSleepWarning => true
  | .permissionWarning => true
  | .noPagesWarning => true
  | .exhaustedError _ => false
  | .downloadException => false

/-! ## The retry policy (`with_retry`, conf.py:80-112)

`with_retry(max_retries=5, reraise=False)` wraps a function with
`tenacity.retry(reraise=True, retry=retry_if_not_exception_type(ApiPermissionError),
stop=stop_after_attempt(max_retries), wait=..., before_sleep=...,
retry_error_callback=log_retry_error)`.

Tenacity's control loop (`BaseRetrying.iter`) is modelled attempt by
attempt.  Its order of checks on a failed attempt is load-bearing:

1. the `retry` predicate is consulted first; for a *non-retryable*
   exception (here `ApiPermissionError`) tenacity returns `fut.result()`,
   which re-raises that exception — `retry_error_callback` is **not**
   invoked on this path;
2. otherwise the `stop` condition (`attempt_number >= max_retries`) is
   checked; on exhaustion `retry_error_callback` is invoked and its return
   value is returned (this takes precedence over tenacity's own
   `reraise=True`);
3. otherwise `before_sleep` logs a warning and the next attempt runs.

A wrapped call therefore yields `Except Exc (Option A)`: `ok (some a)` on
success, `ok none` when exhaustion is swallowed by the callback, `error e`
when an exception propagates to the caller. -/

/-- Outcome of one wrapped call: final result, number of attempts made, and
the log entries emitted while retrying. -/
structure RetryOut (A : Type) where
  result : Except Exc (Option A)
  attempts : Nat
  log : List LogEntry
deriving Repr

/-- `log_retry_error` (conf.py:82-101), as invoked by tenacity on
exhaustion: result returned to the wrapped call's caller plus the log
entries emitted.  The `ApiPermissionError` branch (conf.py:86-90) is dead
code in two independent ways: tenacity never invokes the callback with a
non-retryable exception (see `tenacityGo`), and the branch's f-string
references the undefined names `space_key` and `e`, so evaluating it would
raise `NameError` before `logger.warning` runs — hence that branch logs
nothing and raises. -/
def logRetryError {A : Type} (ex : Exc) (attempt : Nat) (reraise : Bool) :
    Except Exc (Option A) × List LogEntry :=
  if excIsPermission ex then
    (.error .nameError, [])
  else if reraise then
    (.error ex, [.exhaustedError attempt])
  else
    (.ok none, [.exhaustedError attempt])

/-- Tenacity's attempt loop for the configuration built by `with_retry`.
`op n` is the outcome of the n-th attempt (1-based) of the wrapped
function.  `fuel` bounds the recursion; started at `maxRetries` (see
`tenacityRun`) it never reaches the base case before the stop condition
does, and the base case implements the same stop behaviour. -/
def tenacityGo {A : Type} (op : Nat → Except Exc A) (maxRetries : Nat)
    (reraise : Bool) : Nat → Nat → List LogEntry → RetryOut A
  | 0, attempt, log =>
    match op attempt with
    | .ok a => ⟨.ok (some a), attempt, log⟩
    | .error e =>
      if excIsPermission e then ⟨.error e, attempt, log⟩
      else
        let p : Except Exc (Option A) × List LogEntry :=
          logRetryError e attempt reraise
        ⟨p.1, attempt, log ++ p.2⟩
  | fuel + 1, attempt, log =>
    match op attempt with
    | .ok a => ⟨.ok (some a), attempt, log⟩
    | .error e =>
      if excIsPermission e then
        -- retry_if_not_exception_type fails: tenacity returns fut.result(),
        -- re-raising the exception without calling retry_error_callback
        ⟨.error e, attempt, log⟩
      else if maxRetries ≤ attempt then
        -- stop_after_attempt(max_retries): retry_error_callback runs
        let p : Except Exc (Option A) × List LogEntry :=
          logRetryError e attempt reraise
        ⟨p.1, attempt, log ++ p.2⟩
      else
        -- before_sleep_log emits a warning, then the next attempt runs
        tenacityGo op maxRetries reraise fuel (attempt + 1)
          (log ++ [.beforeSleepWarning])

/-- One call of a function wrapped by `with_retry(max_retries, reraise)`
(conf.py:80-112), starting at attempt 1. -/
def tenacityRun {A : Type} (op : Nat → Except Exc A) (maxRetries : Nat)
    (reraise : Bool) : RetryOut A :=
  tenacityGo op maxRetries reraise maxRetries 1 []

/-- A wrapped operation whose every attempt raises `ApiPermissionError`. -/
def alwaysPermission : Nat → Except Exc (List String) :=
  fun _ => .error .apiPermissionError

/-- C1: evaluation at the failing input.  A wrapped operation that raises
`ApiPermissionError` is attempted exactly once and never retried, but —
contrary to the claim — the error is re-raised to the caller of the retry
policy with **no** warning logged and no `None` result: tenacity's
non-retryable path returns `fut.result()` without invoking
`retry_error_callback`, so the warning-and-return-None branch at
conf.py:86-90 is unreachable (and would itself raise `NameError` on its
undefined names `space_key` and `e`). -/
theorem C1_permission_error_reraised :
    (tenacityRun alwaysPermission 5 false).result = .error .apiPermissionError ∧
    (tenacityRun alwaysPermission 5 false).attempts = 1 ∧
    (tenacityRun alwaysPermission 5 false).log = [] :=
  ⟨rfl, rfl, rfl⟩

/-- Helper for C6: when every attempt fails with the same retryable
exception, the loop runs to exhaustion: final attempt number is
`maxRetries`, a `before_sleep` warning precedes every attempt after the
first, the exhaustion error is logged, and (with `reraise = true`) the
final exception is re-raised. -/
theorem tenacityGo_allFail {A : Type} (op : Nat → Except Exc A) (ex : Exc) (m : Nat)
    (he : excIsPermission ex = false) (hop : ∀ n, op n = .error ex) :
    ∀ fuel attempt log, attempt ≤ m → m ≤ attempt + fuel →
      tenacityGo op m true fuel attempt log =
        ⟨.error ex, m,
          log ++ List.replicate (m - attempt) .beforeSleepWarning ++
            [.exhaustedError m]⟩ := by
  intro fuel
  induction fuel with
  | zero =>
    intro attempt log h1 h2
    have hm : attempt = m := le_antisymm h1 (by omega)
    subst hm
    simp [tenacityGo, hop, he, logRetryError]
  | succ fuel ih =>
    intro attempt log h1 h2
    rcases Nat.lt_or_ge attempt m with hlt | hge
    · have hstep :
          tenacityGo op m true (fuel + 1) attempt log =
            tenacityGo op m true fuel (attempt + 1)
              (log ++ [.beforeSleepWarning]) := by
        simp [tenacityGo, hop, he, Nat.not_le.mpr hlt]
      rw [hstep,
        ih (attempt + 1) (log ++ [LogEntry.beforeSleepWarning]) hlt (by omega)]
      have hrep : m - attempt = (m - (attempt + 1)) + 1 := by omega
      rw [hrep]
      simp [List.replicate_succ]
    · have hm : attempt = m := le_antisymm h1 hge
      subst hm
      simp [tenacityGo, hop, he, logRetryError]

/-- C6: a wrapped operation that raises a non-permission (transient) error
on every attempt, under `with_retry(max_retries, reraise=True)`, is
attempted exactly `max_retries` times; a `before_sleep` warning is logged
before each of the `max_retries - 1` retries; then `log_retry_error` logs
the error entry carrying the attempt count, the call's arguments and the
full traceback (conf.py:92-98), and re-raises the final exception to the
caller (conf.py:99-100). -/
theorem C6_transient_exhaustion {A : Type} (op : Nat → Except Exc A) (ex : Exc)
    (m : Nat) (hm : 1 ≤ m) (he : excIsPermission ex = false)
    (hop : ∀ n, op n = .error ex) :
    tenacityRun op m true =
      ⟨.error ex, m,
        List.replicate (m - 1) .beforeSleepWarning ++ [.exhaustedError m]⟩ := by
  have h := tenacityGo_allFail op ex m he hop m 1 [] hm (by omega)
  simpa [tenacityRun] using h

/-- C6 witness: with the default `max_retries = 5`, an operation that
always raises a transient error is attempted exactly 5 times, four retry
warnings and one exhaustion error are logged, and the error is re-raised. -/
theorem C6_witness :
    tenacityRun (fun _ => (Except.error (Exc.otherError 7) : Except Exc Nat)) 5 true =
      ⟨.error (.otherError 7), 5,
        List.replicate 4 .beforeSleepWarning ++ [.exhaustedError 5]⟩ :=
  C6_transient_exhaustion (fun _ => Except.error (Exc.otherError 7))
    (Exc.otherError 7) 5 (by decide) (by decide) (fun _ => rfl)

/-! ## The progress reporter (`_format_time` and `log_progress`, conf.py:4-39)

Python float arithmetic is embedded as exact rational arithmetic (`ℚ`);
the facts below are robust to the sub-ulp differences this ignores.
`int(x)` on the nonnegative values that occur here is `⌊x⌋`. -/

/-- One step of `_format_time`'s loop over `[("d",86400),("h",3600),("m",60),("s",1)]`
(conf.py:7-10): state is (parts so far, remaining seconds). -/
def formatStep (st : List String × Nat) (uv : String × Nat) : List String × Nat :=
  let duration := st.2 / uv.2
  if duration ≠ 0 then (st.1 ++ [toString duration ++ uv.1], st.2 % uv.2) else st

/-- `_format_time(seconds)` (conf.py:4-11): largest-unit-first rendering,
zero units omitted, parts joined by a space (empty when `seconds = 0`). -/
def format_time (seconds : Nat) : String :=
  String.intercalate " "
    (([("d", 86400), ("h", 3600), ("m", 60), ("s", 1)].foldl formatStep
      ([], seconds)).1)

/-- `elapsed_str` (conf.py:26): `_format_time(int(elapsed_time)) or "1s"` —
Python's `or` replaces the falsy empty string by `"1s"`. -/
def elapsed_str (elapsedSeconds : Nat) : String :=
  let s := format_time elapsedSeconds
  if s = "" then "1s" else s

/-- `percents` (conf.py:21): `min(100.0 * current_count / total_count, 100.0)`. -/
def percents (current total : Nat) : ℚ :=
  min (100 * (current : ℚ) / (total : ℚ)) 100

/-- The estimated-time-remaining in seconds (conf.py:28, before `int()`):
`(elapsed_time / max(percents, 0.1)) * (100 - percents)`. -/
def etaSeconds (current total : Nat) (elapsed : ℚ) : ℚ :=
  (elapsed / max (percents current total) (1 / 10)) * (100 - percents current total)

/-- `eta_str` (conf.py:27-31): formatted when `percents > 0`, otherwise the
empty string (omitted from the rendered line, conf.py:36). -/
def eta_str (current total : Nat) (elapsed : ℚ) : String :=
  if 0 < percents current total then
    format_time (⌊etaSeconds current total elapsed⌋.toNat)
  else ""

/-- The `current/total` counts at the end of the progress line
(conf.py:37): `({current_count}/{total_count if current_count < total_count
else total_count})`.  Both branches of the conditional are `total_count`,
so the first component is always the raw `current_count`. -/
def countsDisplay (current total : Nat) : Nat × Nat :=
  (current, if current < total then total else total)

/-- C7 counterexample: at `current = 1`, `total = 2000`, `elapsed = 10` the
percentage is `1/20 = 0.05 > 0`, yet the computed ETA is
`(10 / max(0.05, 0.1)) * (100 - 0.05) = 9995` seconds while the claimed
formula `elapsed * (100 - percent) / percent` gives `19990` seconds: for
`0 < percent < 0.1` the code divides by `0.1`, not by `percent`. -/
theorem C7_counterexample :
    0 < percents 1 2000 ∧
    etaSeconds 1 2000 10 = 9995 ∧
    10 * (100 - percents 1 2000) / percents 1 2000 = 19990 ∧
    etaSeconds 1 2000 10 ≠ 10 * (100 - percents 1 2000) / percents 1 2000 := by
  have hp : percents 1 2000 = 1 / 20 := by
    unfold percents
    norm_num
  refine ⟨by rw [hp]; norm_num, ?_, ?_, ?_⟩
  · unfold etaSeconds
    rw [hp]
    norm_num
  · rw [hp]
    norm_num
  · unfold etaSeconds
    rw [hp]
    norm_num

/-- C7 (amended): the estimated-time-remaining is
`elapsed * (100 - percent) / max(percent, 0.1)`; whenever
`percent ≥ 0.1` this equals the claimed `elapsed * (100 - percent) / percent`,
and when the percentage is zero the ETA string is omitted entirely. -/
theorem C7_eta_formula (current total : Nat) (elapsed : ℚ) :
    (1 / 10 ≤ percents current total →
      etaSeconds current total elapsed =
        elapsed * (100 - percents current total) / percents current total) ∧
    (percents current total = 0 → eta_str current total elapsed = "") := by
  constructor
  · intro hp
    unfold etaSeconds
    rw [max_eq_left hp, div_mul_eq_mul_div]
  · intro hz
    simp [eta_str, hz]

/-- C7 witness: at `current = 1`, `total = 2`, `elapsed = 30` the percentage
is 50 ≥ 0.1 and the amended formula applies; at `current = 0`, `total = 5`
the percentage is zero and the ETA string is omitted. -/
theorem C7_witness :
    etaSeconds 1 2 30 = 30 * (100 - percents 1 2) / percents 1 2 ∧
    eta_str 0 5 9 = "" :=
  ⟨(C7_eta_formula 1 2 30).1 (by unfold percents; norm_num),
   (C7_eta_formula 0 5 9).2 (by unfold percents; norm_num)⟩

/-- C8: evaluation at the failing input.  At `current = 7`, `total = 5` the
rendered counts are `(7/5)`: the conditional at conf.py:37 puts
`total_count` in **both** of its branches, so it is the total slot (a
no-op), and the displayed current value is the raw `current_count = 7`,
not capped to `total = 5` as the claim states. -/
theorem C8_counts_uncapped :
    countsDisplay 7 5 = (7, 5) ∧ (countsDisplay 7 5).1 ≠ 5 := by
  decide

/-- C9: the elapsed-time string rendered by the progress reporter formats
90 seconds as "1m 30s", 0 seconds as "1s" (the `or "1s"` default at
conf.py:26), and 86461 seconds as "1d 1m 1s" — largest unit first, zero
units omitted. -/
theorem C9_elapsed_formats :
    elapsed_str 90 = "1m 30s" ∧ elapsed_str 0 = "1s" ∧
    elapsed_str 86461 = "1d 1m 1s" :=
  ⟨rfl, rfl, rfl⟩

/-! ## The paginated fetcher (`get_page_count` and `download_space`, conf.py:114-141)

The remote Confluence client is an oracle giving the outcome of each
individual network attempt.  `cqlAttempt n` is the n-th attempt of the one
retry-wrapped `confluence.cql` call made by `get_page_count`;
`listAttempt start limit n` is the n-th attempt of the retry-wrapped
`confluence.get_all_pages_from_space(space_key, start=start, limit=limit, ...)`
call at offset `start`.  Page records are opaque; they are embedded as
strings. -/

/-- The CQL response dict as far as `get_page_count` reads it:
`.get("totalSize")` yields `totalSize` (`none` when the key is absent). -/
structure CqlResp where
  totalSize : Option Nat
deriving DecidableEq, Repr

/-- Per-attempt outcomes of the remote service's calls. -/
structure Service where
  cqlAttempt : Nat → Except Exc CqlResp
  listAttempt : Nat → Nat → Nat → Except Exc (List String)

/-- `get_page_count(space_key)` (conf.py:114-117):
`with_retry()(confluence.cql)(...).get("totalSize")` with the defaults
`max_retries = 5`, `reraise = False`.  When the wrapped call's exhaustion
is swallowed to `None`, the subsequent `.get` attribute access raises
`AttributeError`; a re-raised exception (e.g. `ApiPermissionError`)
propagates unchanged.  Returns the result (the `totalSize` value, `none`
when the key is absent) or the raised exception, plus the log entries
emitted. -/
def get_page_count (svc : Service) : Except Exc (Option Nat) × List LogEntry :=
  let ro := tenacityRun svc.cqlAttempt 5 false
  match ro.result with
  | .error e => (.error e, ro.log)
  | .ok none => (.error .attributeError, ro.log)
  | .ok (some resp) => (.ok resp.totalSize, ro.log)

/-- The stack-local state of one `download_space` invocation: the `pages`
accumulator, the offsets passed to the successive wrapped list calls, the
lengths of the non-empty pages consumed, the `current` values passed to
`log_progress`, and the log entries emitted so far. -/
structure LoopSt where
  pages : List String
  offsets : List Nat
  pageLens : List Nat
  reports : List Nat
  log : List LogEntry
deriving DecidableEq, Repr

/-- The `while True` pagination loop (conf.py:127-136).  Each iteration
makes one retry-wrapped list call (`with_retry()` defaults) at the current
offset with `limit = 2`; a raised exception aborts the loop (`error` with
the partial state); a falsy result — swallowed exhaustion (`None`) or an
empty page — breaks the loop; a non-empty page is appended, the offset
advances by its length, and `log_progress` is invoked with the new
accumulated count.  `fuel` bounds the recursion: the Python loop has no
bound of its own (`none` = fuel ran out, a model artifact). -/
def downloadLoop (svc : Service) :
    Nat → Nat → LoopSt → Option (Except (Exc × LoopSt) LoopSt)
  | 0, _, _ => none
  | fuel + 1, start, st =>
    let ro := tenacityRun (fun att => svc.listAttempt start 2 att) 5 false
    let st1 : LoopSt :=
      { st with offsets := st.offsets ++ [start], log := st.log ++ ro.log }
    match ro.result with
    | .error e => some (.error (e, st1))
    | .ok none => some (.ok st1)
    | .ok (some []) => some (.ok st1)
    | .ok (some (p :: ps)) =>
        downloadLoop svc fuel (start + (p :: ps).length)
          { st1 with
              pages := st1.pages ++ (p :: ps),
              pageLens := st1.pageLens ++ [(p :: ps).length],
              reports := st1.reports ++ [st1.pages.length + (p :: ps).length] }

/-- A fresh `LoopSt` carrying only the log entries emitted so far. -/
def initSt (log : List LogEntry) : LoopSt :=
  { pages := [], offsets := [], pageLens := [], reports := [], log := log }

/-- The body of `download_space`'s `try:` block (conf.py:120-138): query the
page count once; on a falsy count (`0` or `None`) log a warning and return
`None` (`ok (none, st)`); otherwise run the pagination loop and return the
accumulated pages (`ok (some pages, st)`).  An exception raised anywhere in
the body is the `error` case, carrying the state (partial pages, logs) at
the moment it was raised. -/
def download_space_try (svc : Service) (fuel : Nat) :
    Option (Except (Exc × LoopSt) (Option (List String) × LoopSt)) :=
  let g := get_page_count svc
  match g.1 with
  | .error e => some (.error (e, initSt g.2))
  | .ok pagesCount =>
    if pagesCount.getD 0 = 0 then
      some (.ok (none, initSt (g.2 ++ [.noPagesWarning])))
    else
      match downloadLoop svc fuel 0 (initSt g.2) with
      | none => none
      | some (.error est) => some (.error est)
      | some (.ok st) => some (.ok (some st.pages, st))

/-- The observable outcome of one `download_space` call: the returned value
(`none` is Python's `None`), the log, and the loop's call offsets, page
lengths and progress reports. -/
structure DLRun where
  result : Option (List String)
  log : List LogEntry
  offsets : List Nat
  pageLens : List Nat
  reports : List Nat
deriving DecidableEq, Repr

/-- `download_space(space_key, output_dir)` (conf.py:119-141): the `try:`
body wrapped in `except Exception as e: logger.exception(...)` — the
caught exception is logged with its traceback and the function falls off
the end, returning `None` and discarding the partial accumulator. -/
def download_space (svc : Service) (fuel : Nat) : Option DLRun :=
  match download_space_try svc fuel with
  | none => none
  | some (.ok (res, st)) => some ⟨res, st.log, st.offsets, st.pageLens, st.reports⟩
  | some (.error (_, st)) =>
      some ⟨none, st.log ++ [.downloadException], st.offsets, st.pageLens,
        st.reports⟩

/-! ### C2: the reference pagination trace -/

/-- The remote service of the C2 trace: `count` returns 5 and the list call
returns pages `["a","b"]`, `["c","d"]`, `["e"]`, `[]` at offsets
`0, 2, 4, 5`, each on its first attempt. -/
def svcC2 : Service where
  cqlAttempt := fun _ => .ok ⟨some 5⟩
  listAttempt := fun start _limit _att =>
    if start = 0 then .ok ["a", "b"]
    else if start = 2 then .ok ["c", "d"]
    else if start = 4 then .ok ["e"]
    else .ok []

/-- The run of `download_space` on the C2 trace. -/
def c2run : DLRun :=
  ⟨some ["a", "b", "c", "d", "e"], [], [0, 2, 4, 5], [2, 2, 1], [2, 4, 5]⟩

/-- C2 counterexample: on the claimed trace the progress reporter is
invoked exactly **three** times, with `current` values `2, 4, 5` — not
four times with values `2, 4, 5, 5`: `log_progress` runs once per
non-empty page (conf.py:136), and the fourth list call returns the empty
page, which breaks the loop before any report. -/
theorem C2_counterexample :
    download_space svcC2 20 = some c2run ∧
    c2run.reports.length ≠ 4 ∧ c2run.reports ≠ [2, 4, 5, 5] := by
  refine ⟨rfl, by decide, by decide⟩

/-- C2 (amended): on the trace where `count` returns 5 and the list call
returns `["a","b"]`, `["c","d"]`, `["e"]`, `[]` at successive offsets
`0, 2, 4, 5`, `download_space` returns `["a","b","c","d","e"]` and invokes
the progress reporter exactly three times with strictly increasing
`current` values `2, 4, 5`, stopping before a fourth report when the empty
page is returned. -/
theorem C2_reference_trace :
    download_space svcC2 20 = some c2run ∧
    c2run.result = some ["a", "b", "c", "d", "e"] ∧
    c2run.reports = [2, 4, 5] ∧ c2run.reports.length = 3 ∧
    List.Chain' (· < ·) c2run.reports := by
  refine ⟨rfl, rfl, rfl, rfl, ?_⟩
  norm_num [c2run, List.chain'_cons]

/-! ### C3: the pagination-loop invariant -/

/-- The successive offsets generated by a loop that starts at `start` and
advances by each page length in turn: `[start, start+l1, start+l1+l2, ...]`
(one final offset for the call that terminates the loop). -/
def offsetsFrom (start : Nat) : List Nat → List Nat
  | [] => [start]
  | l :: ls => start :: offsetsFrom (start + l) ls

theorem offsetsFrom_length (start : Nat) (ls : List Nat) :
    (offsetsFrom start ls).length = ls.length + 1 := by
  induction ls generalizing start with
  | nil => rfl
  | cons l ls ih => simp [offsetsFrom, ih]

theorem offsetsFrom_head (start : Nat) (ls : List Nat) :
    (offsetsFrom start ls).head? = some start := by
  cases ls <;> rfl

/-- When every page length is positive, the generated offsets are strictly
increasing. -/
theorem offsetsFrom_chain (ls : List Nat) :
    ∀ start, (∀ l ∈ ls, 0 < l) → List.Chain' (· < ·) (offsetsFrom start ls) := by
  induction ls with
  | nil => intro start _; simp [offsetsFrom]
  | cons l ls ih =>
    intro start hpos
    rw [offsetsFrom, List.chain'_cons']
    constructor
    · intro b hb
      simp [offsetsFrom_head] at hb
      subst hb
      exact Nat.lt_add_of_pos_right (hpos l (by simp))
    · exact ih (start + l) (fun x hx => hpos x (by simp [hx]))

/-- Shape of every normally-terminating run of the pagination loop: some
list `ls` of (positive) non-empty-page lengths is appended to the incoming
`pageLens`, and the wrapped list calls are made exactly at the offsets
`offsetsFrom start ls` — each offset exceeding the previous by the length
of the page just consumed, with one final call (the one whose empty or
absent page terminated the loop). -/
theorem downloadLoop_ok (svc : Service) :
    ∀ fuel start st st', downloadLoop svc fuel start st = some (.ok st') →
      ∃ ls, st'.pageLens = st.pageLens ++ ls ∧ (∀ l ∈ ls, 0 < l) ∧
        st'.offsets = st.offsets ++ offsetsFrom start ls := by
  intro fuel
  induction fuel with
  | zero => intro start st st' h; simp [downloadLoop] at h
  | succ fuel ih =>
    intro start st st' h
    simp only [downloadLoop] at h
    cases hro : (tenacityRun (fun att => svc.listAttempt start 2 att) 5 false).result with
    | error e => rw [hro] at h; simp at h
    | ok po =>
      rw [hro] at h
      cases po with
      | none =>
        simp at h
        refine ⟨[], by simp [← h], by simp, by simp [← h, offsetsFrom]⟩
      | some pg =>
        cases pg with
        | nil =>
          simp at h
          refine ⟨[], by simp [← h], by simp, by simp [← h, offsetsFrom]⟩
        | cons p ps =>
          simp only at h
          obtain ⟨ls', h1, h2, h3⟩ := ih _ _ _ h
          refine ⟨(p :: ps).length :: ls', ?_, ?_, ?_⟩
          · rw [h1]; simp
          · intro l hl
            rcases List.mem_cons.mp hl with hl | hl
            · subst hl; simp
            · exact h2 l hl
          · rw [h3, offsetsFrom]; simp

/-- C3 formalisation of the claimed termination rule, specialised to one
run: if after some `k` consumed pages the cumulative item count has
reached `total`, the loop makes no further wrapped list call (so the total
number of calls is at most `k`). -/
def stopsAtTotal (total : Nat) (pageLens : List Nat) (numCalls : Nat) : Prop :=
  ∀ k, k ≤ pageLens.length → total ≤ (pageLens.take k).sum → numCalls ≤ k

/-- The C3 counterexample service: `count` returns 2, but the list call
keeps producing items past the total — `["a","b"]` at offset 0, `["c"]` at
offset 2, `[]` at offset 3. -/
def svcC3 : Service where
  cqlAttempt := fun _ => .ok ⟨some 2⟩
  listAttempt := fun start _limit _att =>
    if start = 0 then .ok ["a", "b"]
    else if start = 2 then .ok ["c"]
    else .ok []

/-- The run of `download_space` on the C3 counterexample service. -/
def c3run : DLRun := ⟨some ["a", "b", "c"], [], [0, 2, 3], [2, 1], [2, 3]⟩

/-- C3 counterexample: with `count = 2`, after the first page the
cumulative count (2) has already reached the total, yet the loop performs
two further wrapped list calls (offsets 2 and 3, three calls in all) and
returns `["a","b","c"]`: the loop's only exit test is `if not page_data`
(conf.py:131) — reaching the reported total does not terminate it. -/
theorem C3_counterexample :
    download_space svcC3 20 = some c3run ∧
    ¬ stopsAtTotal 2 c3run.pageLens c3run.offsets.length := by
  refine ⟨rfl, fun hcl => ?_⟩
  have h1 := hcl 1 (by decide) (by decide)
  exact absurd h1 (by decide)

/-- C3 (amended): in every execution of the pagination loop that returns a
result, the offsets of the successive wrapped list calls are exactly
`offsetsFrom 0 pageLens` — each offset strictly exceeding the previous by
the length of the (non-empty, hence positive-length) page just consumed —
and the loop terminates at the first empty (or absent) page: one final
call beyond the consumed pages, `pageLens.length + 1` calls in all.  The
total reported by the initial count call does not occur in the invariant:
it plays no role in termination. -/
theorem C3_offset_invariant (svc : Service) (fuel : Nat) (r : DLRun)
    (pages : List String) (h : download_space svc fuel = some r)
    (hres : r.result = some pages) :
    r.offsets = offsetsFrom 0 r.pageLens ∧ (∀ l ∈ r.pageLens, 0 < l) ∧
    r.offsets.length = r.pageLens.length + 1 ∧
    List.Chain' (· < ·) r.offsets := by
  unfold download_space at h
  cases htry : download_space_try svc fuel with
  | none => rw [htry] at h; simp at h
  | some ex =>
    rw [htry] at h
    cases ex with
    | error est =>
      simp at h
      rw [← h] at hres
      simp at hres
    | ok rs =>
      obtain ⟨res, st⟩ := rs
      simp at h
      simp only [download_space_try] at htry
      cases hg : (get_page_count svc).1 with
      | error e => rw [hg] at htry; simp at htry
      | ok pagesCount =>
        rw [hg] at htry
        by_cases hz : pagesCount.getD 0 = 0
        · simp [hz] at htry
          rw [← h] at hres
          rw [← htry.1] at hres
          simp at hres
        · simp [hz] at htry
          cases hloop : downloadLoop svc fuel 0 (initSt (get_page_count svc).2) with
          | none => rw [hloop] at htry; simp at htry
          | some lex =>
            rw [hloop] at htry
            cases lex with
            | error est => simp at htry
            | ok st0 =>
              simp at htry
              obtain ⟨ls, hl1, hl2, hl3⟩ := downloadLoop_ok svc fuel 0 _ st0 hloop
              simp [initSt] at hl1 hl3
              rw [← h, ← htry.2]
              refine ⟨by simp [hl3, hl1], by simpa [hl1] using hl2, ?_, ?_⟩
              · simp [hl3, hl1, offsetsFrom_length]
              · simp only [hl3]
                exact offsetsFrom_chain ls 0 (by simpa [hl1] using hl2)

/-- C3 witness: the amended invariant evaluated on the concrete C3 run —
call offsets `[0, 2, 3]` are `offsetsFrom 0 [2, 1]`, every consumed page
length is positive, there is one more call than consumed pages, and the
offsets are strictly increasing. -/
theorem C3_offset_invariant_witness :
    c3run.offsets = offsetsFrom 0 c3run.pageLens ∧
    (∀ l ∈ c3run.pageLens, 0 < l) ∧
    c3run.offsets.length = c3run.pageLens.length + 1 ∧
    List.Chain' (· < ·) c3run.offsets :=
  C3_offset_invariant svcC3 20 c3run ["a", "b", "c"] rfl rfl

/-! ### C4: zero page count -/

/-- C4: when the count call returns 0 (conf.py:122-125), `download_space`
returns `None` — no pages — after logging exactly one warning-level entry
(the "No pages found" warning), and the pagination loop is never entered:
zero wrapped list calls, zero progress reports. -/
theorem C4_zero_count (svc : Service) (fuel : Nat)
    (h : svc.cqlAttempt 1 = .ok ⟨some 0⟩) :
    download_space svc fuel = some ⟨none, [.noPagesWarning], [], [], []⟩ ∧
    ∀ r, download_space svc fuel = some r →
      (r.log.filter levelIsWarning).length = 1 ∧ r.result = none ∧
      r.offsets = [] ∧ r.reports = [] := by
  have hg : get_page_count svc = (.ok (some 0), []) := by
    simp [get_page_count, tenacityRun, tenacityGo, h]
  have hd : download_space svc fuel = some ⟨none, [.noPagesWarning], [], [], []⟩ := by
    simp [download_space, download_space_try, hg, initSt]
  refine ⟨hd, fun r hr => ?_⟩
  rw [hd] at hr
  obtain rfl : (⟨none, [.noPagesWarning], [], [], []⟩ : DLRun) = r :=
    Option.some.inj hr
  exact ⟨rfl, rfl, rfl, rfl⟩

/-- A remote service whose count call always returns `totalSize = 0` and
whose list call always returns the empty page. -/
def svcC4 : Service where
  cqlAttempt := fun _ => .ok ⟨some 0⟩
  listAttempt := fun _ _ _ => .ok []

/-- C4 witness: the zero-count behaviour on a concrete service. -/
theorem C4_witness :
    download_space svcC4 10 = some ⟨none, [.noPagesWarning], [], [], []⟩ ∧
    ∀ r, download_space svcC4 10 = some r →
      (r.log.filter levelIsWarning).length = 1 ∧ r.result = none ∧
      r.offsets = [] ∧ r.reports = [] :=
  C4_zero_count svcC4 10 rfl

/-! ### C5: the top-level catch -/

/-- C5: whenever an exception escapes the retry-wrapped calls inside
`download_space`'s `try:` body, the top-level `except Exception` handler
(conf.py:140-141) catches it, appends the `logger.exception` entry (ERROR
level, with traceback) to the log, and the routine returns `None` — the
partial `pages` accumulator carried by the erroring state is discarded.
`download_space` itself is a total function into `DLRun` (its result
channel has no exception case), so no exception escapes to its caller. -/
theorem C5_top_level_catch (svc : Service) (fuel : Nat) (e : Exc) (st : LoopSt)
    (h : download_space_try svc fuel = some (.error (e, st))) :
    download_space svc fuel =
      some ⟨none, st.log ++ [.downloadException], st.offsets, st.pageLens,
        st.reports⟩ := by
  simp [download_space, h]

/-- A service whose count call returns 5, whose first list call (offset 0)
returns `["a","b"]`, and whose second list call raises
`ApiPermissionError` — which the retry wrapper re-raises (see C1). -/
def svcC5 : Service where
  cqlAttempt := fun _ => .ok ⟨some 5⟩
  listAttempt := fun start _limit _att =>
    if start = 0 then .ok ["a", "b"] else .error .apiPermissionError

/-- C5 witness: on `svcC5` the try-body aborts at offset 2 with
`ApiPermissionError` after accumulating the partial pages `["a","b"]`, and
`download_space` returns `None` with the exception logged — the partial
accumulator is discarded. -/
theorem C5_witness :
    download_space_try svcC5 20 =
      some (.error (.apiPermissionError, ⟨["a", "b"], [0, 2], [2], [2], []⟩)) ∧
    download_space svcC5 20 =
      some ⟨none, [LogEntry.downloadException], [0, 2], [2], [2]⟩ :=
  ⟨rfl,
    C5_top_level_catch svcC5 20 .apiPermissionError
      ⟨["a", "b"], [0, 2], [2], [2], []⟩ rfl⟩

/-! ## The logging facade (`CloudwatchLogger`, src/logger.py:7-56)

The class keeps one instance per `name` in the class-level dictionary
`_loggers`.  `__new__` creates and records an instance (with
`_initialized = False`) only when the name is absent; `__init__` runs on
every construction but returns immediately once `_initialized` is set.
The observable per-instance effects of the body are modelled: the
effective level of the underlying `logging.getLogger(name)` (the body
calls `set_log_level(level)` and then immediately
`setLevel(logging.DEBUG)`), the number of attached handlers (stream +
optional CloudWatch + file, added only when `hasHandlers()` is false;
`awsOk` says whether the `boto3`/`watchtower` handler setup succeeds —
its failure is caught and only logged), and the `propagate` flag.  X-Ray
tracing configuration (`xray_recorder.configure`, `patch_all`) is part of
the once-only body and is accounted for by `initCount`. -/

/-- One `CloudwatchLogger` instance together with its underlying
`logging.Logger`'s modelled state.  `id` is the object's identity;
`initCount` counts how many times the initialization body ran on it;
`level` uses the numeric values of the `logging` module (DEBUG = 10). -/
structure LoggerInst where
  id : Nat
  initialized : Bool
  initCount : Nat
  level : Nat
  handlers : Nat
  propagate : Bool
deriving DecidableEq, Repr

/-- The class-level registry `CloudwatchLogger._loggers` plus a fresh-id
counter standing for object allocation. -/
structure CWState where
  insts : String → Option LoggerInst
  nextId : Nat

/-- A freshly allocated, not-yet-initialized instance over a fresh
`logging.getLogger` logger (level NOTSET = 0, no handlers, propagating). -/
def freshInst (id : Nat) : LoggerInst :=
  { id := id, initialized := false, initCount := 0, level := 0, handlers := 0,
    propagate := true }

/-- `__new__` (logger.py:10-15): record a fresh instance only when `name`
is not yet in `_loggers`. -/
def cwNew (s : CWState) (name : String) : CWState :=
  if s.insts name = none then
    { insts := fun n => if n = name then some (freshInst s.nextId) else s.insts n,
      nextId := s.nextId + 1 }
  else s

/-- `set_log_level` (logger.py:58-62) for a numeric level. -/
def set_log_level (i : LoggerInst) (level : Nat) : LoggerInst :=
  { i with level := level }

/-- The body of `__init__` past the `_initialized` guard (logger.py:20-56):
mark initialized, set the requested level and then immediately DEBUG
(logger.py:23-24), attach the handlers when the logger has none (2 without
the CloudWatch handler, 3 with it), and disable propagation. -/
def cwInitBody (i : LoggerInst) (level : Nat) (awsOk : Bool) : LoggerInst :=
  let i0 := { i with initialized := true, initCount := i.initCount + 1 }
  let i1 := set_log_level i0 level
  let i2 := { i1 with level := 10 }
  let i3 := if i2.handlers = 0 then
      { i2 with handlers := if awsOk then 3 else 2 }
    else i2
  { i3 with propagate := false }

/-- One evaluation of `CloudwatchLogger(level, name)`: Python always runs
`__new__` (which returns the registry's entry for `name`, inserting a
fresh one if absent) and then `__init__` on that entry; `__init__`'s body
runs only when the entry is not yet initialized.  Returns the constructed
object and the updated class state.  (The `none` branch is unreachable:
`__new__` has just ensured the entry exists.) -/
def cwConstruct (s : CWState) (level : Nat) (name : String) (awsOk : Bool) :
    Option LoggerInst × CWState :=
  let s1 := cwNew s name
  match s1.insts name with
  | none => (none, s1)
  | some self =>
    if self.initialized then (some self, s1)
    else
      let self1 := cwInitBody self level awsOk
      (some self1,
        { s1 with insts := fun n => if n = name then some self1 else s1.insts n })

theorem cwInitBody_initialized (i : LoggerInst) (level : Nat) (awsOk : Bool) :
    (cwInitBody i level awsOk).initialized = true := by
  simp only [cwInitBody, set_log_level]
  split <;> rfl

/-- `__new__` always leaves an entry for `name` in the registry. -/
theorem cwNew_mem (s : CWState) (name : String) :
    ∃ j, (cwNew s name).insts name = some j := by
  unfold cwNew
  split
  · exact ⟨freshInst s.nextId, by simp⟩
  · rename_i hne
    cases hx : s.insts name with
    | none => exact absurd hx hne
    | some j => exact ⟨j, rfl⟩

/-- After any construction, the registry's entry for `name` exists, is
marked initialized, and is the object the construction returned. -/
theorem cwConstruct_initialized (s : CWState) (level : Nat) (name : String)
    (awsOk : Bool) :
    ∃ i, ((cwConstruct s level name awsOk).2).insts name = some i ∧
      i.initialized = true ∧ (cwConstruct s level name awsOk).1 = some i := by
  obtain ⟨j, hj⟩ := cwNew_mem s name
  by_cases hji : j.initialized = true
  · refine ⟨j, ?_, hji, ?_⟩ <;> simp [cwConstruct, hj, hji]
  · refine ⟨cwInitBody j level awsOk, ?_, cwInitBody_initialized j level awsOk, ?_⟩ <;>
      simp [cwConstruct, hj, hji]

/-- C10: constructing `CloudwatchLogger` a second time with the same name
returns the identical already-initialized instance and leaves the whole
registry untouched: the initialization body runs at most once per name, so
a second construction — even with a different `level` argument or a
different CloudWatch-setup outcome — changes neither the logger's level
nor its handlers (the second construction's resulting state equals the
first's). -/
theorem C10_singleton_per_name (s : CWState) (l1 l2 : Nat) (name : String)
    (a1 a2 : Bool) :
    (cwConstruct (cwConstruct s l1 name a1).2 l2 name a2).1 =
      (cwConstruct s l1 name a1).1 ∧
    (cwConstruct (cwConstruct s l1 name a1).2 l2 name a2).2 =
      (cwConstruct s l1 name a1).2 := by
  obtain ⟨i, hi, hinit, hret⟩ := cwConstruct_initialized s l1 name a1
  have h1 : cwNew (cwConstruct s l1 name a1).2 name = (cwConstruct s l1 name a1).2 := by
    unfold cwNew
    rw [if_neg (by simp [hi])]
  have hsecond : cwConstruct (cwConstruct s l1 name a1).2 l2 name a2 =
      (some i, (cwConstruct s l1 name a1).2) := by
    generalize hs2 : (cwConstruct s l1 name a1).2 = s2 at hi h1
    simp only [cwConstruct, h1]
    rw [hi]
    simp [hinit]
  rw [hsecond, hret]
  exact ⟨rfl, rfl⟩
